import Mathlib

/-!
# Verification of the post-quantum transport security core

Shallow embedding of `backend/app/pq_transport.py`, `backend/app/session_manager.py`,
`backend/app/models.py` and the routers `backend/app/routers/pq.py`,
`backend/app/routers/messages.py`, `backend/app/routers/documents.py`.

Bytes are modelled as `List Nat` (each element a byte value `< 256`); Python
exceptions are modelled with `Except`; the module-level mutable session-key
dictionary is modelled as an explicit store value threaded through the
operations.  The external cryptographic primitives the code calls
(`cryptography`'s AES-256-GCM, SHA-256/HKDF) are deterministic public
algorithms and are embedded directly from their standards (FIPS-197,
NIST SP 800-38D, FIPS-180-4, RFC 5869), which is what the library computes.
The external KEM library (`liboqs`) and `base64.b64decode` are modelled as
parameters, since no claim depends on their internals.
-/

namespace PQ

/-! ## Byte-level helpers -/

/-- Big-endian interpretation of a byte list as a natural number. -/
def bytesToNatBE (l : List Nat) : Nat := l.foldl (fun acc b => acc * 256 + b % 256) 0

/-- The sixteen big-endian bytes of a 128-bit value. -/
def natToBytes16 (x : Nat) : List Nat :=
  [x / 2^120 % 256, x / 2^112 % 256, x / 2^104 % 256, x / 2^96 % 256,
   x / 2^88 % 256, x / 2^80 % 256, x / 2^72 % 256, x / 2^64 % 256,
   x / 2^56 % 256, x / 2^48 % 256, x / 2^40 % 256, x / 2^32 % 256,
   x / 2^24 % 256, x / 2^16 % 256, x / 2^8 % 256, x % 256]

/-! ## AES-256 block cipher (FIPS-197)

`cryptography.hazmat.primitives.ciphers.aead.AESGCM` with a 32-byte key is
AES-256 in Galois/Counter mode; this section embeds the block cipher. -/

/-- The AES S-box (FIPS-197 Fig. 7). -/
def sbox : List Nat :=
  [0x63, 0x7c, 0x77, 0x7b, 0xf2, 0x6b, 0x6f, 0xc5, 0x30, 0x01, 0x67, 0x2b, 0xfe, 0xd7, 0xab, 0x76,
   0xca, 0x82, 0xc9, 0x7d, 0xfa, 0x59, 0x47, 0xf0, 0xad, 0xd4, 0xa2, 0xaf, 0x9c, 0xa4, 0x72, 0xc0,
   0xb7, 0xfd, 0x93, 0x26, 0x36, 0x3f, 0xf7, 0xcc, 0x34, 0xa5, 0xe5, 0xf1, 0x71, 0xd8, 0x31, 0x15,
   0x04, 0xc7, 0x23, 0xc3, 0x18, 0x96, 0x05, 0x9a, 0x07, 0x12, 0x80, 0xe2, 0xeb, 0x27, 0xb2, 0x75,
   0x09, 0x83, 0x2c, 0x1a, 0x1b, 0x6e, 0x5a, 0xa0, 0x52, 0x3b, 0xd6, 0xb3, 0x29, 0xe3, 0x2f, 0x84,
   0x53, 0xd1, 0x00, 0xed, 0x20, 0xfc, 0xb1, 0x5b, 0x6a, 0xcb, 0xbe, 0x39, 0x4a, 0x4c, 0x58, 0xcf,
   0xd0, 0xef, 0xaa, 0xfb, 0x43, 0x4d, 0x33, 0x85, 0x45, 0xf9, 0x02, 0x7f, 0x50, 0x3c, 0x9f, 0xa8,
   0x51, 0xa3, 0x40, 0x8f, 0x92, 0x9d, 0x38, 0xf5, 0xbc, 0xb6, 0xda, 0x21, 0x10, 0xff, 0xf3, 0xd2,
   0xcd, 0x0c, 0x13, 0xec, 0x5f, 0x97, 0x44, 0x17, 0xc4, 0xa7, 0x7e, 0x3d, 0x64, 0x5d, 0x19, 0x73,
   0x60, 0x81, 0x4f, 0xdc, 0x22, 0x2a, 0x90, 0x88, 0x46, 0xee, 0xb8, 0x14, 0xde, 0x5e, 0x0b, 0xdb,
   0xe0, 0x32, 0x3a, 0x0a, 0x49, 0x06, 0x24, 0x5c, 0xc2, 0xd3, 0xac, 0x62, 0x91, 0x95, 0xe4, 0x79,
   0xe7, 0xc8, 0x37, 0x6d, 0x8d, 0xd5, 0x4e, 0xa9, 0x6c, 0x56, 0xf4, 0xea, 0x65, 0x7a, 0xae, 0x08,
   0xba, 0x78, 0x25, 0x2e, 0x1c, 0xa6, 0xb4, 0xc6, 0xe8, 0xdd, 0x74, 0x1f, 0x4b, 0xbd, 0x8b, 0x8a,
   0x70, 0x3e, 0xb5, 0x66, 0x48, 0x03, 0xf6, 0x0e, 0x61, 0x35, 0x57, 0xb9, 0x86, 0xc1, 0x1d, 0x9e,
   0xe1, 0xf8, 0x98, 0x11, 0x69, 0xd9, 0x8e, 0x94, 0x9b, 0x1e, 0x87, 0xe9, 0xce, 0x55, 0x28, 0xdf,
   0x8c, 0xa1, 0x89, 0x0d, 0xbf, 0xe6, 0x42, 0x68, 0x41, 0x99, 0x2d, 0x0f, 0xb0, 0x54, 0xbb, 0x16]

/-- S-box substitution of one byte. -/
def subByte (b : Nat) : Nat := sbox.getD b 0

/-- Round constants for the AES-256 key schedule. -/
def rcon : List Nat := [0x01, 0x02, 0x04, 0x08, 0x10, 0x20, 0x40]

/-- Big-endian 32-bit word from four bytes. -/
def word32 (b0 b1 b2 b3 : Nat) : Nat :=
  (b0 % 256) * 2^24 + (b1 % 256) * 2^16 + (b2 % 256) * 2^8 + b3 % 256

/-- The four big-endian bytes of a 32-bit word. -/
def wordBytes (w : Nat) : List Nat := [w / 2^24 % 256, w / 2^16 % 256, w / 2^8 % 256, w % 256]

/-- `SubWord` of the key schedule: S-box applied to each byte of a word. -/
def subWord (w : Nat) : Nat :=
  word32 (subByte (w / 2^24 % 256)) (subByte (w / 2^16 % 256))
         (subByte (w / 2^8 % 256)) (subByte (w % 256))

/-- `RotWord` of the key schedule: one-byte left rotation. -/
def rotWord (w : Nat) : Nat := (w % 2^24) * 2^8 + w / 2^24

/-- AES-256 key expansion: a 32-byte key to 60 round-key words (FIPS-197 §5.2,
`Nk = 8`, `Nr = 14`). -/
def keyExpansion (key : List Nat) : List Nat :=
  let init := (List.range 8).map (fun i =>
    word32 (key.getD (4*i) 0) (key.getD (4*i+1) 0) (key.getD (4*i+2) 0) (key.getD (4*i+3) 0))
  (List.range 52).foldl (fun w j =>
    let i := j + 8
    let t := w.getD (i - 1) 0
    let t := if i % 8 = 0 then Nat.xor (subWord (rotWord t)) ((rcon.getD (i / 8 - 1) 0) * 2^24)
             else if i % 8 = 4 then subWord t
             else t
    w ++ [Nat.xor (w.getD (i - 8) 0) t]) init

/-- The 16 bytes of round key `r` (words `4r .. 4r+3`). -/
def roundKeyBytes (w : List Nat) (r : Nat) : List Nat :=
  wordBytes (w.getD (4*r) 0) ++ wordBytes (w.getD (4*r+1) 0) ++
  wordBytes (w.getD (4*r+2) 0) ++ wordBytes (w.getD (4*r+3) 0)

/-- `AddRoundKey`: bytewise xor of state and round key. -/
def addRoundKey (s rk : List Nat) : List Nat := List.zipWith Nat.xor s rk

/-- `SubBytes`: S-box applied to every state byte. -/
def subBytesOp (s : List Nat) : List Nat := s.map subByte

/-- `ShiftRows` on the column-major 16-byte state: row `r` rotates left by `r`. -/
def shiftRows (s : List Nat) : List Nat :=
  [s.getD 0 0, s.getD 5 0, s.getD 10 0, s.getD 15 0,
   s.getD 4 0, s.getD 9 0, s.getD 14 0, s.getD 3 0,
   s.getD 8 0, s.getD 13 0, s.getD 2 0, s.getD 7 0,
   s.getD 12 0, s.getD 1 0, s.getD 6 0, s.getD 11 0]

/-- Multiplication by `x` in GF(2^8) modulo `x^8 + x^4 + x^3 + x + 1`. -/
def xtime (b : Nat) : Nat := if b < 0x80 then 2 * b else Nat.xor (2 * b % 256) 0x1B

/-- `MixColumns` on one column. -/
def mixCol (a0 a1 a2 a3 : Nat) : List Nat :=
  [Nat.xor (Nat.xor (xtime a0) (Nat.xor (xtime a1) a1)) (Nat.xor a2 a3),
   Nat.xor (Nat.xor a0 (xtime a1)) (Nat.xor (Nat.xor (xtime a2) a2) a3),
   Nat.xor (Nat.xor a0 a1) (Nat.xor (xtime a2) (Nat.xor (xtime a3) a3)),
   Nat.xor (Nat.xor (Nat.xor (xtime a0) a0) a1) (Nat.xor a2 (xtime a3))]

/-- `MixColumns` on the 16-byte state. -/
def mixColumns (s : List Nat) : List Nat :=
  mixCol (s.getD 0 0) (s.getD 1 0) (s.getD 2 0) (s.getD 3 0) ++
  mixCol (s.getD 4 0) (s.getD 5 0) (s.getD 6 0) (s.getD 7 0) ++
  mixCol (s.getD 8 0) (s.getD 9 0) (s.getD 10 0) (s.getD 11 0) ++
  mixCol (s.getD 12 0) (s.getD 13 0) (s.getD 14 0) (s.getD 15 0)

/-- AES-256 encryption of one 128-bit block under a 32-byte key. -/
def aesBlock (key : List Nat) (block : Nat) : Nat :=
  let w := keyExpansion key
  let s0 := addRoundKey (natToBytes16 block) (roundKeyBytes w 0)
  let sMid := (List.range 13).foldl
    (fun s r => addRoundKey (mixColumns (shiftRows (subBytesOp s))) (roundKeyBytes w (r+1))) s0
  bytesToNatBE (addRoundKey (shiftRows (subBytesOp sMid)) (roundKeyBytes w 14))

/-! ## Galois/Counter mode (NIST SP 800-38D) -/

/-- Multiplication in GF(2^128) with the GCM reduction polynomial
`x^128 + x^7 + x^2 + x + 1` (bit-reflected convention of SP 800-38D). -/
def gfMult (x y : Nat) : Nat :=
  ((List.range 128).foldl (fun zv i =>
    let z := if x / 2^(127 - i) % 2 = 1 then Nat.xor zv.1 zv.2 else zv.1
    let v := if zv.2 % 2 = 1 then Nat.xor (zv.2 / 2) 0xe1000000000000000000000000000000
             else zv.2 / 2
    (z, v)) ((0 : Nat), y)).1

/-- GHASH over a list of 128-bit blocks with hash subkey `h`. -/
def ghash (h : Nat) (blocks : List Nat) : Nat :=
  blocks.foldl (fun y b => gfMult (Nat.xor y b) h) 0

/-- Zero-pad a byte list on the right to a multiple of 16 bytes. -/
def pad16 (l : List Nat) : List Nat := l ++ List.replicate ((16 - l.length % 16) % 16) 0

/-- Split a byte list into 128-bit blocks (the list length must be a
multiple of 16; a final short chunk yields one short block). -/
def blocks16 : List Nat → List Nat
  | [] => []
  | b :: t => bytesToNatBE (b :: t.take 15) :: blocks16 (t.drop 15)
  termination_by l => l.length
  decreasing_by simp [List.length_drop]; omega

/-- The pre-counter block `J0` (SP 800-38D §7.1): for a 96-bit IV,
`IV ‖ 0^31 ‖ 1`; otherwise `GHASH(IV padded ‖ len(IV))`. -/
def gcmJ0 (h : Nat) (nonce : List Nat) : Nat :=
  if nonce.length = 12 then bytesToNatBE nonce * 2^32 + 1
  else ghash h (blocks16 (pad16 nonce) ++ [8 * nonce.length % 2^64])

/-- Counter block `i` steps after `J0`: `inc32` iterated `i` times. -/
def gcmCounter (j0 i : Nat) : Nat := j0 / 2^32 * 2^32 + (j0 % 2^32 + i) % 2^32

/-- `n` bytes of GCM keystream (counter mode starting at `inc32(J0)`). -/
def gctrKeystream (key : List Nat) (j0 n : Nat) : List Nat :=
  (((List.range ((n + 15) / 16)).map
      (fun i => natToBytes16 (aesBlock key (gcmCounter j0 (i + 1))))).flatten).take n

/-- The 16-byte GCM authentication tag over ciphertext `ct` (no AAD):
`GHASH_H(ct padded ‖ len(AAD)=0 ‖ len(ct)) ⊕ E_K(J0)`. -/
def gcmTag (key : List Nat) (j0 h : Nat) (ct : List Nat) : List Nat :=
  natToBytes16 (Nat.xor (ghash h (blocks16 (pad16 ct) ++ [8 * ct.length % 2^64]))
                        (aesBlock key j0))

/-- `AESGCM(key).encrypt(nonce, pt, None)`: ciphertext with the 16-byte tag
appended (no associated data). -/
def aesgcmEncrypt (key nonce pt : List Nat) : List Nat :=
  let h := aesBlock key 0
  let j0 := gcmJ0 h nonce
  let ct := List.zipWith Nat.xor pt (gctrKeystream key j0 pt.length)
  ct ++ gcmTag key j0 h ct

/-- `AESGCM(key).decrypt(nonce, data, None)`: split off the trailing 16-byte
tag, verify it, and return the plaintext bytes; `none` models the
`InvalidTag` exception. -/
def aesgcmDecrypt (key nonce data : List Nat) : Option (List Nat) :=
  if data.length < 16 then none
  else
    let h := aesBlock key 0
    let j0 := gcmJ0 h nonce
    let ct := data.take (data.length - 16)
    let tag := data.drop (data.length - 16)
    if tag = gcmTag key j0 h ct then
      some (List.zipWith Nat.xor ct (gctrKeystream key j0 ct.length))
    else none

/-! ## UTF-8 (CPython's strict `str.encode('utf-8')` / `bytes.decode('utf-8')`) -/

/-- UTF-8 encoding of one Unicode code point (1–4 bytes). -/
def utf8EncodeChar (c : Nat) : List Nat :=
  if c < 0x80 then [c]
  else if c < 0x800 then [0xC0 + c / 64, 0x80 + c % 64]
  else if c < 0x10000 then [0xE0 + c / 4096, 0x80 + c / 64 % 64, 0x80 + c % 64]
  else [0xF0 + c / 262144, 0x80 + c / 4096 % 64, 0x80 + c / 64 % 64, 0x80 + c % 64]

/-- `plaintext.encode('utf-8')`: bytes of a string.  Lean `Char`s are exactly
the scalar values CPython can encode (surrogates excluded). -/
def utf8Encode (s : String) : List Nat := s.data.flatMap (fun c => utf8EncodeChar c.toNat)

/-- Strict UTF-8 decoding of a byte list into code points (`none` models
`UnicodeDecodeError`): rejects stray continuation bytes, truncated
sequences, overlong forms, surrogates and values above `U+10FFFF`, as
CPython's strict codec does.  Continuation bytes (high bits `10`) are the
`b` with `b / 64 = 2`; the lead-byte ranges and the extra conditions on the
first continuation byte (`0xE0`/`0xED`/`0xF0`/`0xF4`) are the standard
shortest-form and scalar-value restrictions. -/
def utf8DecodeList : List Nat → Option (List Nat)
  | [] => some []
  | b0 :: t =>
    if b0 < 0x80 then
      (utf8DecodeList t).map (b0 :: ·)
    else if b0 < 0xC2 then none
    else if b0 < 0xE0 then
      if 1 ≤ t.length ∧ t.getD 0 0 / 64 = 2 then
        (utf8DecodeList (t.drop 1)).map (((b0 - 0xC0) * 64 + (t.getD 0 0 - 0x80)) :: ·)
      else none
    else if b0 < 0xF0 then
      if (2 ≤ t.length ∧ t.getD 0 0 / 64 = 2 ∧ t.getD 1 0 / 64 = 2) ∧
         (0xE0 < b0 ∨ 0xA0 ≤ t.getD 0 0) ∧ (b0 ≠ 0xED ∨ t.getD 0 0 < 0xA0) then
        (utf8DecodeList (t.drop 2)).map
          (((b0 - 0xE0) * 4096 + (t.getD 0 0 - 0x80) * 64 + (t.getD 1 0 - 0x80)) :: ·)
      else none
    else if b0 < 0xF5 then
      if (3 ≤ t.length ∧ t.getD 0 0 / 64 = 2 ∧ t.getD 1 0 / 64 = 2 ∧ t.getD 2 0 / 64 = 2) ∧
         (0xF0 < b0 ∨ 0x90 ≤ t.getD 0 0) ∧ (b0 ≠ 0xF4 ∨ t.getD 0 0 < 0x90) then
        (utf8DecodeList (t.drop 3)).map
          (((b0 - 0xF0) * 262144 + (t.getD 0 0 - 0x80) * 4096 + (t.getD 1 0 - 0x80) * 64 +
            (t.getD 2 0 - 0x80)) :: ·)
      else none
    else none
  termination_by l => l.length
  decreasing_by all_goals (simp only [List.length_drop, List.length_cons]; omega)

/-- `data.decode('utf-8')` as a Lean string. -/
def utf8Decode (l : List Nat) : Option String :=
  (utf8DecodeList l).map (fun cs => ⟨cs.map Char.ofNat⟩)

/-! ## SHA-256, HMAC and HKDF (FIPS-180-4, RFC 2104, RFC 5869)

These embed what `cryptography`'s `HKDF(algorithm=SHA256(), length=32,
salt=None, info=info)` computes; `salt=None` uses a zero-filled salt of the
digest size. -/

/-- The SHA-256 round constants. -/
def sha256K : List Nat :=
  [1116352408, 1899447441, 3049323471, 3921009573, 961987163, 1508970993,
   2453635748, 2870763221, 3624381080, 310598401, 607225278, 1426881987,
   1925078388, 2162078206, 2614888103, 3248222580, 3835390401, 4022224774,
   264347078, 604807628, 770255983, 1249150122, 1555081692, 1996064986,
   2554220882, 2821834349, 2952996808, 3210313671, 3336571891, 3584528711,
   113926993, 338241895, 666307205, 773529912, 1294757372, 1396182291,
   1695183700, 1986661051, 2177026350, 2456956037, 2730485921, 2820302411,
   3259730800, 3345764771, 3516065817, 3600352804, 4094571909, 275423344,
   430227734, 506948616, 659060556, 883997877, 958139571, 1322822218,
   1537002063, 1747873779, 1955562222, 2024104815, 2227730452, 2361852424,
   2428436474, 2756734187, 3204031479, 3329325298]

/-- 32-bit right rotation. -/
def rotr32 (n x : Nat) : Nat := (x / 2^n + x % 2^n * 2^(32 - n)) % 2^32

/-- The eight-word SHA-256 working state. -/
structure Sha256State where
  a : Nat
  b : Nat
  c : Nat
  d : Nat
  e : Nat
  f : Nat
  g : Nat
  h : Nat

/-- The SHA-256 initial hash value. -/
def sha256Init : Sha256State :=
  ⟨1779033703, 3144134277, 1013904242, 2773480762, 1359893119, 2600822924, 528734635, 1541459225⟩

/-- Expand a 16-word block into the 64-word message schedule. -/
def sha256Schedule (block : List Nat) : List Nat :=
  (List.range 48).foldl (fun w j =>
    let i := j + 16
    let s0 := Nat.xor (rotr32 7 (w.getD (i-15) 0))
              (Nat.xor (rotr32 18 (w.getD (i-15) 0)) (w.getD (i-15) 0 / 2^3))
    let s1 := Nat.xor (rotr32 17 (w.getD (i-2) 0))
              (Nat.xor (rotr32 19 (w.getD (i-2) 0)) (w.getD (i-2) 0 / 2^10))
    w ++ [(w.getD (i-16) 0 + s0 + w.getD (i-7) 0 + s1) % 2^32]) block

/-- One SHA-256 compression step. -/
def sha256Round (st : Sha256State) (k w : Nat) : Sha256State :=
  let s1 := Nat.xor (rotr32 6 st.e) (Nat.xor (rotr32 11 st.e) (rotr32 25 st.e))
  let ch := Nat.xor (Nat.land st.e st.f) (Nat.land (Nat.xor st.e 0xffffffff) st.g)
  let t1 := (st.h + s1 + ch + k + w) % 2^32
  let s0 := Nat.xor (rotr32 2 st.a) (Nat.xor (rotr32 13 st.a) (rotr32 22 st.a))
  let mj := Nat.xor (Nat.land st.a st.b) (Nat.xor (Nat.land st.a st.c) (Nat.land st.b st.c))
  let t2 := (s0 + mj) % 2^32
  ⟨(t1 + t2) % 2^32, st.a, st.b, st.c, (st.d + t1) % 2^32, st.e, st.f, st.g⟩

/-- Compress one 64-byte block into the running state. -/
def sha256Compress (st : Sha256State) (block : List Nat) : Sha256State :=
  let w := sha256Schedule ((List.range 16).map (fun i =>
    word32 (block.getD (4*i) 0) (block.getD (4*i+1) 0)
           (block.getD (4*i+2) 0) (block.getD (4*i+3) 0)))
  let r := (List.range 64).foldl (fun s i => sha256Round s (sha256K.getD i 0) (w.getD i 0)) st
  ⟨(st.a + r.a) % 2^32, (st.b + r.b) % 2^32, (st.c + r.c) % 2^32, (st.d + r.d) % 2^32,
   (st.e + r.e) % 2^32, (st.f + r.f) % 2^32, (st.g + r.g) % 2^32, (st.h + r.h) % 2^32⟩

/-- Merkle–Damgård padding: `0x80`, zeros, and the 64-bit bit length. -/
def sha256Pad (msg : List Nat) : List Nat :=
  msg ++ 0x80 :: List.replicate ((119 - msg.length % 64) % 64) 0 ++
  (natToBytes16 (8 * msg.length % 2^64)).drop 8

/-- Split a byte list into 64-byte chunks. -/
def chunks64 : List Nat → List (List Nat)
  | [] => []
  | b :: t => (b :: t.take 63) :: chunks64 (t.drop 63)
  termination_by l => l.length
  decreasing_by simp [List.length_drop]; omega

/-- The 32 digest bytes of a state. -/
def sha256Digest (st : Sha256State) : List Nat :=
  wordBytes st.a ++ wordBytes st.b ++ wordBytes st.c ++ wordBytes st.d ++
  wordBytes st.e ++ wordBytes st.f ++ wordBytes st.g ++ wordBytes st.h

/-- SHA-256 of a byte list. -/
def sha256 (msg : List Nat) : List Nat :=
  sha256Digest ((chunks64 (sha256Pad msg)).foldl sha256Compress sha256Init)

/-- HMAC-SHA-256 (RFC 2104). -/
def hmacSha256 (key msg : List Nat) : List Nat :=
  let k1 := if key.length > 64 then sha256 key else key
  let k0 := k1 ++ List.replicate (64 - k1.length) 0
  sha256 (k0.map (Nat.xor 0x5c) ++ sha256 (k0.map (Nat.xor 0x36) ++ msg))

/-- HKDF-Extract with a zero-filled 32-byte salt (what `salt=None` means in
the `cryptography` library, per RFC 5869). -/
def hkdfExtract (ikm : List Nat) : List Nat := hmacSha256 (List.replicate 32 0) ikm

/-- HKDF-Expand (RFC 5869 §2.3). -/
def hkdfExpand (prk info : List Nat) (len : Nat) : List Nat :=
  ((((List.range ((len + 31) / 32)).foldl (fun acc i =>
      let t := hmacSha256 prk (acc.2 ++ info ++ [i + 1])
      (acc.1 ++ t, t)) (([] : List Nat), ([] : List Nat))).1)).take len

/-! ## `app/pq_transport.py` -/

/-- Python exceptions raised (or absorbed) on the PQ transport paths.
`runtimeError` models `RuntimeError` (uninitialized key material),
`oqsError` models an exception propagating out of the `oqs` library, and
`valueError` models `ValueError`. -/
inductive PQError
  | runtimeError
  | oqsError
  | valueError
  deriving DecidableEq, Repr

/-- `generate_server_keypair()`.  `hasOqs` is the module flag `HAS_OQS`
(whether `import oqs` succeeded); `oqsKeypair` stands for the
`(generate_keypair(), export_secret_key())` pair the liboqs backend would
produce, `urandomPub`/`urandomSec` for the `os.urandom(800)` and
`os.urandom(1632)` draws of the fallback branch.  The function returns the
keypair and never raises; the `Except` result type records that no error
path exists in the source. -/
def generate_server_keypair (hasOqs : Bool) (oqsKeypair : List Nat × List Nat)
    (urandomPub urandomSec : List Nat) : Except PQError (List Nat × List Nat) :=
  if hasOqs then
    Except.ok oqsKeypair
  else
    Except.ok (urandomPub, urandomSec)

/-- `get_server_public_key()`: raises `RuntimeError` while
`server_kem_public_key is None`. -/
def get_server_public_key (serverKemPublicKey : Option (List Nat)) :
    Except PQError (List Nat) :=
  match serverKemPublicKey with
  | none => Except.error PQError.runtimeError
  | some pk => Except.ok pk

/-- `server_decapsulate(ciphertext)`.  `serverKemSecretKey` is the module
global; `oqsDecap` stands for `oqs.KeyEncapsulation(alg, sk).decap_secret`,
`urandom32` for the `os.urandom(32)` draw of the fallback branch.  With
`HAS_OQS` false the function ignores the ciphertext entirely and returns the
32 random bytes. -/
def server_decapsulate (hasOqs : Bool)
    (oqsDecap : List Nat → List Nat → Except PQError (List Nat))
    (urandom32 : List Nat) (serverKemSecretKey : Option (List Nat))
    (ciphertext : List Nat) : Except PQError (List Nat) :=
  match serverKemSecretKey with
  | none => Except.error PQError.runtimeError
  | some sk =>
    if hasOqs then oqsDecap sk ciphertext
    else Except.ok urandom32

/-- The default `info=b"pq_transport_session"` label. -/
def pqTransportInfo : List Nat :=
  [0x70, 0x71, 0x5f, 0x74, 0x72, 0x61, 0x6e, 0x73, 0x70, 0x6f,
   0x72, 0x74, 0x5f, 0x73, 0x65, 0x73, 0x73, 0x69, 0x6f, 0x6e]

/-- `derive_session_key(shared_secret, info)`: HKDF with SHA-256, 32-byte
output, `salt=None` and the given `info` label.  A pure function of its two
arguments (it draws no randomness). -/
def derive_session_key (sharedSecret : List Nat) (info : List Nat := pqTransportInfo) :
    List Nat :=
  hkdfExpand (hkdfExtract sharedSecret) info 32

/-- `encrypt_aes_gcm(key, plaintext)`.  `nonceRand` stands for the
`os.urandom(12)` draw.  `AESGCM(key)` only accepts 128/192/256-bit keys and
in this system the key is always the 32-byte HKDF output, so the embedding
models the AES-256 case and maps any other key length to the constructor's
`ValueError`. -/
def encrypt_aes_gcm (key : List Nat) (nonceRand : List Nat) (plaintext : String) :
    Except PQError (List Nat × List Nat) :=
  if key.length = 32 then
    Except.ok (nonceRand, aesgcmEncrypt key nonceRand (utf8Encode plaintext))
  else Except.error PQError.valueError

/-- `decrypt_aes_gcm(key, nonce, ciphertext)`.  Inside the `try` both a tag
failure (`InvalidTag`) and a UTF-8 decode failure (`UnicodeDecodeError`)
are caught by the same `except Exception` and re-raised as the single
`ValueError("Decryption failed: ...")`; the key-length check of the
`AESGCM(key)` constructor happens before the `try` (see `encrypt_aes_gcm`
for the key-length modelling). -/
def decrypt_aes_gcm (key nonce ciphertext : List Nat) : Except PQError String :=
  if key.length = 32 then
    match aesgcmDecrypt key nonce ciphertext with
    | none => Except.error PQError.valueError
    | some plaintextBytes =>
      match utf8Decode plaintextBytes with
      | none => Except.error PQError.valueError
      | some s => Except.ok s
  else Except.error PQError.valueError

/-! ## `app/session_manager.py`

The module-level dictionary `session_keys: Dict[str, bytes]` is modelled as
a total lookup function; every operation is a total Lean function, so no
operation can raise. -/

/-- The session-key registry (`session_keys` dictionary). -/
def SessionStore : Type := String → Option (List Nat)

/-- The initial empty dictionary `{}`. -/
def emptySessionStore : SessionStore := fun _ => none

/-- `store_session_key(user_id, session_key)`: insert or replace. -/
def store_session_key (store : SessionStore) (userId : String) (sessionKey : List Nat) :
    SessionStore :=
  fun v => if v = userId then some sessionKey else store v

/-- `get_session_key(user_id)`: `dict.get`, `None` when absent. -/
def get_session_key (store : SessionStore) (userId : String) : Option (List Nat) :=
  store userId

/-- `clear_session_key(user_id)`: delete if present, no-op otherwise. -/
def clear_session_key (store : SessionStore) (userId : String) : SessionStore :=
  fun v => if v = userId then none else store v

/-- `has_session_key(user_id)`: membership test. -/
def has_session_key (store : SessionStore) (userId : String) : Bool :=
  (store userId).isSome

/-! ## `app/models.py` -/

/-- Python's `str.isspace` character class (the characters `str.strip()`
removes). -/
def pyIsSpace (c : Char) : Bool :=
  (0x09 ≤ c.toNat && c.toNat ≤ 0x0d) || (0x1c ≤ c.toNat && c.toNat ≤ 0x1f) ||
  c.toNat = 0x20 || c.toNat = 0x85 || c.toNat = 0xa0 || c.toNat = 0x1680 ||
  (0x2000 ≤ c.toNat && c.toNat ≤ 0x200a) || c.toNat = 0x2028 || c.toNat = 0x2029 ||
  c.toNat = 0x202f || c.toNat = 0x205f || c.toNat = 0x3000

/-- Python's `s.strip()`: whitespace removed from both ends. -/
def pyStrip (s : String) : String :=
  ⟨((s.data.dropWhile pyIsSpace).reverse.dropWhile pyIsSpace).reverse⟩

/-- The `MessageCreate` pydantic model: plaintext `content` or an encrypted
`nonce`/`ciphertext` pair (all base64 strings on the wire). -/
structure MessageCreate where
  content : Option String
  recipient_id : String
  nonce : Option String
  ciphertext : Option String
  deriving DecidableEq, Repr

/-- `MessageCreate.is_encrypted()`: both `nonce` and `ciphertext` present. -/
def MessageCreate.is_encrypted (m : MessageCreate) : Bool :=
  m.nonce.isSome && m.ciphertext.isSome

/-- Construction of a `MessageCreate`, including the `model_post_init`
validation: rejects when neither a non-blank `content` nor a full
`nonce`/`ciphertext` pair is supplied, and when a non-blank `content` is
supplied together with the encrypted pair.  `Except.error` models the
`ValueError` pydantic surfaces as a validation failure. -/
def mkMessageCreate (content : Option String) (recipientId : String)
    (nonce ciphertext : Option String) : Except String MessageCreate :=
  let m : MessageCreate := ⟨content, recipientId, nonce, ciphertext⟩
  let hasContent := match m.content with
    | some c => pyStrip c != ""
    | none => false
  if !m.is_encrypted && !hasContent then
    Except.error ("Either plaintext or encrypted payload must be provided")
  else if m.is_encrypted && hasContent then
    Except.error ("Cannot provide both plaintext and encrypted payload")
  else Except.ok m

/-- Modelled from the spec: the `DocumentCreate` pydantic model is imported
by `app/routers/documents.py` but its definition is missing from
`app/models.py` in the repository.  Per the spec's protected-payload
contract (§6: `{nonce: base64, ciphertext: base64}` with a plaintext
`content` fallback) and the fields `upload_document` reads
(`title`, `content`, `nonce`, `ciphertext`, `is_encrypted()`), it mirrors
`MessageCreate` with a `title` instead of a recipient. -/
structure DocumentCreate where
  title : String
  content : Option String
  nonce : Option String
  ciphertext : Option String
  deriving DecidableEq, Repr

/-- `DocumentCreate.is_encrypted()`: both `nonce` and `ciphertext` present
(same convention as `MessageCreate`). -/
def DocumentCreate.is_encrypted (d : DocumentCreate) : Bool :=
  d.nonce.isSome && d.ciphertext.isSome

/-! ## `app/routers/pq.py` -/

/-- HTTP-level failures surfaced by the routers (`HTTPException` details). -/
inductive RouterError
  | handshakeFailed
  | noSessionKey
  | decryptFailed
  | emptyContent
  deriving DecidableEq, Repr

/-- The `POST /pq/handshake` handler body.  `b64` stands for
`base64.b64decode` (`none` models a `binascii.Error`); `hasOqs`, `oqsDecap`,
`urandom32` and `serverKemSecretKey` are as in `server_decapsulate`.  The
`try` block base64-decodes the ciphertext, decapsulates, derives the session
key via HKDF with the fixed `b"pq_transport_session"` label, and only then
mutates the session store; any exception up to that point is caught and
re-raised as HTTP 400 ("Handshake failed"), leaving the store as it was.
The result pairs the HTTP outcome with the store after the request. -/
def handshake (hasOqs : Bool)
    (oqsDecap : List Nat → List Nat → Except PQError (List Nat))
    (urandom32 : List Nat) (b64 : String → Option (List Nat))
    (serverKemSecretKey : Option (List Nat)) (store : SessionStore)
    (userId : String) (ciphertextB64 : String) :
    Except RouterError Unit × SessionStore :=
  match b64 ciphertextB64 with
  | none => (Except.error RouterError.handshakeFailed, store)
  | some ciphertext =>
    match server_decapsulate hasOqs oqsDecap urandom32 serverKemSecretKey ciphertext with
    | Except.error _ => (Except.error RouterError.handshakeFailed, store)
    | Except.ok sharedSecret =>
      let sessionKey := derive_session_key sharedSecret pqTransportInfo
      (Except.ok (), store_session_key store userId sessionKey)

/-! ## `app/routers/messages.py` and `app/routers/documents.py`
(protected-payload ingestion) -/

/-- The decrypt-or-reject prefix of `POST /messages` (`send_message`): for an
encrypted payload, fetch the caller's session key (HTTP 400 "No session key
found. Please perform PQ handshake first." when absent), base64-decode nonce
and ciphertext and decrypt with AES-GCM (any failure inside the `try`,
including the base64 decode, becomes HTTP 400 "Failed to decrypt message");
for a plaintext payload, reject empty or blank content.  Returns the
plaintext content the rest of the handler stores. -/
def send_message_ingest (store : SessionStore) (b64 : String → Option (List Nat))
    (userId : String) (m : MessageCreate) : Except RouterError String :=
  if m.is_encrypted then
    match get_session_key store userId with
    | none => Except.error RouterError.noSessionKey
    | some sessionKey =>
      match b64 (m.nonce.getD ("")), b64 (m.ciphertext.getD ("")) with
      | some nonce, some ciphertext =>
        match decrypt_aes_gcm sessionKey nonce ciphertext with
        | Except.ok plaintext => Except.ok plaintext
        | Except.error _ => Except.error RouterError.decryptFailed
      | _, _ => Except.error RouterError.decryptFailed
  else
    match m.content with
    | none => Except.error RouterError.emptyContent
    | some c => if pyStrip c = "" then Except.error RouterError.emptyContent else Except.ok c

/-- The decrypt-or-reject prefix of `POST /documents` (`upload_document`):
identical structure to `send_message_ingest` (HTTP 400 "No session key
found..." / "Failed to decrypt document"), on a `DocumentCreate`. -/
def upload_document_ingest (store : SessionStore) (b64 : String → Option (List Nat))
    (userId : String) (d : DocumentCreate) : Except RouterError String :=
  if d.is_encrypted then
    match get_session_key store userId with
    | none => Except.error RouterError.noSessionKey
    | some sessionKey =>
      match b64 (d.nonce.getD ("")), b64 (d.ciphertext.getD ("")) with
      | some nonce, some ciphertext =>
        match decrypt_aes_gcm sessionKey nonce ciphertext with
        | Except.ok plaintext => Except.ok plaintext
        | Except.error _ => Except.error RouterError.decryptFailed
      | _, _ => Except.error RouterError.decryptFailed
  else
    match d.content with
    | none => Except.error RouterError.emptyContent
    | some c => if pyStrip c = "" then Except.error RouterError.emptyContent else Except.ok c

/-! ## Helper lemmas -/

theorem length_natToBytes16 (x : Nat) : (natToBytes16 x).length = 16 := rfl

theorem length_gcmTag (key : List Nat) (j0 h : Nat) (ct : List Nat) :
    (gcmTag key j0 h ct).length = 16 := rfl

theorem take_length_append (a b : List Nat) : (a ++ b).take a.length = a := by
  induction a with
  | nil => simp
  | cons x t ih => simp [ih]

theorem drop_length_append (a b : List Nat) : (a ++ b).drop a.length = b := by
  induction a with
  | nil => simp
  | cons x t ih => simp [ih]

theorem length_flatten_map16 (l : List Nat) (f : Nat → List Nat)
    (hf : ∀ i, (f i).length = 16) : ((l.map f).flatten).length = 16 * l.length := by
  induction l with
  | nil => simp
  | cons x t ih =>
    simp only [List.map_cons, List.flatten_cons, List.length_append, hf, ih, List.length_cons]
    omega

theorem length_gctrKeystream (key : List Nat) (j0 n : Nat) :
    (gctrKeystream key j0 n).length = n := by
  unfold gctrKeystream
  rw [List.length_take, length_flatten_map16 _ _ (fun i => length_natToBytes16 _)]
  simp only [List.length_range]
  omega

theorem zipWith_xor_cancel (p : List Nat) : ∀ (k : List Nat), p.length ≤ k.length →
    List.zipWith Nat.xor (List.zipWith Nat.xor p k) k = p := by
  induction p with
  | nil => intro k _; simp
  | cons a t ih =>
    intro k hk
    match k with
    | [] => simp at hk
    | b :: kt =>
      simp only [List.zipWith_cons_cons]
      rw [ih kt (by simpa using hk)]
      have hx : Nat.xor (Nat.xor a b) b = a := by
        show a ^^^ b ^^^ b = a
        rw [Nat.xor_assoc, Nat.xor_self, Nat.xor_zero]
      rw [hx]

/-- AES-GCM round trip at the byte level: decrypting an encryption under the
same key and nonce recovers the plaintext bytes. -/
theorem aesgcmDecrypt_encrypt (key nonce pt : List Nat) :
    aesgcmDecrypt key nonce (aesgcmEncrypt key nonce pt) = some pt := by
  have hksl : (gctrKeystream key (gcmJ0 (aesBlock key 0) nonce) pt.length).length = pt.length :=
    length_gctrKeystream key _ pt.length
  have hctl :
      (List.zipWith Nat.xor pt (gctrKeystream key (gcmJ0 (aesBlock key 0) nonce) pt.length)).length
        = pt.length := by
    rw [List.length_zipWith, hksl, Nat.min_self]
  simp only [aesgcmEncrypt, aesgcmDecrypt]
  rw [List.length_append, length_gcmTag, hctl]
  rw [if_neg (by omega)]
  have hidx : pt.length + 16 - 16 =
      (List.zipWith Nat.xor pt (gctrKeystream key (gcmJ0 (aesBlock key 0) nonce) pt.length)).length := by
    omega
  rw [hidx, take_length_append, drop_length_append, if_pos rfl, hctl]
  exact congrArg some (zipWith_xor_cancel pt _ (le_of_eq hksl.symm))

/-- Strict UTF-8 decoding undoes the encoding of one valid scalar value at
the head of the stream. -/
theorem utf8DecodeList_encodeChar (c : Nat) (hv : c < 0xd800 ∨ (0xdfff < c ∧ c < 0x110000))
    (rest : List Nat) :
    utf8DecodeList (utf8EncodeChar c ++ rest) = (utf8DecodeList rest).map (c :: ·) := by
  by_cases h1 : c < 0x80
  · have he : utf8EncodeChar c = [c] := by unfold utf8EncodeChar; rw [if_pos h1]
    rw [he, List.cons_append, List.nil_append, utf8DecodeList.eq_2, if_pos h1]
  · by_cases h2 : c < 0x800
    · have he : utf8EncodeChar c = [0xC0 + c / 64, 0x80 + c % 64] := by
        unfold utf8EncodeChar; rw [if_neg h1, if_pos h2]
      rw [he, List.cons_append, List.cons_append, List.nil_append, utf8DecodeList.eq_2]
      have e1 : ¬(0xC0 + c / 64 < 0x80) := by omega
      have e2 : ¬(0xC0 + c / 64 < 0xC2) := by omega
      have e3 : 0xC0 + c / 64 < 0xE0 := by omega
      rw [if_neg e1, if_neg e2, if_pos e3]
      simp only [List.getD_cons_zero, List.length_cons, List.drop_succ_cons, List.drop_zero]
      have e4 : 1 ≤ rest.length + 1 ∧ (0x80 + c % 64) / 64 = 2 := ⟨by omega, by omega⟩
      rw [if_pos e4]
      have hc : (0xC0 + c / 64 - 0xC0) * 64 + (0x80 + c % 64 - 0x80) = c := by omega
      rw [hc]
    · by_cases h3 : c < 0x10000
      · have he : utf8EncodeChar c = [0xE0 + c / 4096, 0x80 + c / 64 % 64, 0x80 + c % 64] := by
          unfold utf8EncodeChar; rw [if_neg h1, if_neg h2, if_pos h3]
        rw [he, List.cons_append, List.cons_append, List.cons_append, List.nil_append,
            utf8DecodeList.eq_2]
        have e1 : ¬(0xE0 + c / 4096 < 0x80) := by omega
        have e2 : ¬(0xE0 + c / 4096 < 0xC2) := by omega
        have e3 : ¬(0xE0 + c / 4096 < 0xE0) := by omega
        have e4 : 0xE0 + c / 4096 < 0xF0 := by omega
        rw [if_neg e1, if_neg e2, if_neg e3, if_pos e4]
        simp only [List.getD_cons_zero, List.getD_cons_succ, List.length_cons,
          List.drop_succ_cons, List.drop_zero]
        have e5 : (2 ≤ rest.length + 1 + 1 ∧ (0x80 + c / 64 % 64) / 64 = 2 ∧
              (0x80 + c % 64) / 64 = 2) ∧
            (0xE0 < 0xE0 + c / 4096 ∨ 0xA0 ≤ 0x80 + c / 64 % 64) ∧
            (0xE0 + c / 4096 ≠ 0xED ∨ 0x80 + c / 64 % 64 < 0xA0) := by
          refine ⟨⟨by omega, by omega, by omega⟩, by omega, ?_⟩
          rcases hv with hvl | hvr
          · by_cases hed : c / 4096 = 13
            · exact Or.inr (by omega)
            · exact Or.inl (by omega)
          · omega
        rw [if_pos e5]
        have hc : (0xE0 + c / 4096 - 0xE0) * 4096 + (0x80 + c / 64 % 64 - 0x80) * 64 +
            (0x80 + c % 64 - 0x80) = c := by omega
        rw [hc]
      · have h4 : c < 0x110000 := by omega
        have he : utf8EncodeChar c =
            [0xF0 + c / 262144, 0x80 + c / 4096 % 64, 0x80 + c / 64 % 64, 0x80 + c % 64] := by
          unfold utf8EncodeChar; rw [if_neg h1, if_neg h2, if_neg h3]
        rw [he, List.cons_append, List.cons_append, List.cons_append, List.cons_append,
            List.nil_append, utf8DecodeList.eq_2]
        have e1 : ¬(0xF0 + c / 262144 < 0x80) := by omega
        have e2 : ¬(0xF0 + c / 262144 < 0xC2) := by omega
        have e3 : ¬(0xF0 + c / 262144 < 0xE0) := by omega
        have e4 : ¬(0xF0 + c / 262144 < 0xF0) := by omega
        have e5 : 0xF0 + c / 262144 < 0xF5 := by omega
        rw [if_neg e1, if_neg e2, if_neg e3, if_neg e4, if_pos e5]
        simp only [List.getD_cons_zero, List.getD_cons_succ, List.length_cons,
          List.drop_succ_cons, List.drop_zero]
        have e6 : (3 ≤ rest.length + 1 + 1 + 1 ∧ (0x80 + c / 4096 % 64) / 64 = 2 ∧
              (0x80 + c / 64 % 64) / 64 = 2 ∧ (0x80 + c % 64) / 64 = 2) ∧
            (0xF0 < 0xF0 + c / 262144 ∨ 0x90 ≤ 0x80 + c / 4096 % 64) ∧
            (0xF0 + c / 262144 ≠ 0xF4 ∨ 0x80 + c / 4096 % 64 < 0x90) := by
          refine ⟨⟨by omega, by omega, by omega, by omega⟩, by omega, ?_⟩
          by_cases hf4 : c / 262144 = 4
          · exact Or.inr (by omega)
          · exact Or.inl (by omega)
        rw [if_pos e6]
        have hc : (0xF0 + c / 262144 - 0xF0) * 262144 + (0x80 + c / 4096 % 64 - 0x80) * 4096 +
            (0x80 + c / 64 % 64 - 0x80) * 64 + (0x80 + c % 64 - 0x80) = c := by omega
        rw [hc]

/-- Strict UTF-8 decoding undoes the encoding of any list of valid scalar
values. -/
theorem utf8DecodeList_encode (cs : List Char) :
    utf8DecodeList (cs.flatMap (fun c => utf8EncodeChar c.toNat)) =
      some (cs.map Char.toNat) := by
  induction cs with
  | nil => rw [List.flatMap_nil, utf8DecodeList.eq_1]; rfl
  | cons c t ih =>
    rw [List.flatMap_cons, utf8DecodeList_encodeChar c.toNat c.valid, ih]
    rfl

/-- UTF-8 round trip on strings: `utf8Decode (utf8Encode s) = some s`. -/
theorem utf8Decode_encode (s : String) : utf8Decode (utf8Encode s) = some s := by
  unfold utf8Decode utf8Encode
  rw [utf8DecodeList_encode]
  have h : (s.data.map Char.toNat).map Char.ofNat = s.data := by
    rw [List.map_map]
    have h2 : (Char.ofNat ∘ Char.toNat) = id := by
      funext c; exact Char.ofNat_toNat c
    rw [h2, List.map_id]
  show some (String.mk ((s.data.map Char.toNat).map Char.ofNat)) = some s
  rw [h]

/-- Every SHA-256 digest has 32 bytes. -/
theorem length_sha256 (msg : List Nat) : (sha256 msg).length = 32 := rfl

/-- Every HMAC-SHA-256 output has 32 bytes. -/
theorem length_hmacSha256 (key msg : List Nat) : (hmacSha256 key msg).length = 32 :=
  length_sha256 _

/-- The derived session key always has exactly 32 bytes. -/
theorem length_derive_session_key (ss info : List Nat) :
    (derive_session_key ss info).length = 32 := by
  have h32 : (32 + 31) / 32 = 1 := by norm_num
  unfold derive_session_key hkdfExpand
  rw [h32]
  have hr : List.range 1 = [0] := rfl
  rw [hr, List.foldl_cons, List.foldl_nil]
  show (List.take 32 ([] ++ hmacSha256 (hkdfExtract ss) ([] ++ info ++ [0 + 1]))).length = 32
  rw [List.length_take, List.nil_append, length_hmacSha256]
  omega

/-! ## Claims -/

/-- C1: the claim says the component fails closed when liboqs is absent
(`generate_server_keypair` and `server_decapsulate` must return errors in
the no-library configuration).  The code does the opposite: with
`HAS_OQS = False`, `generate_server_keypair` returns the `os.urandom(800)` /
`os.urandom(1632)` bytes as the keypair and `server_decapsulate` (once the
secret key is set) returns the fresh `os.urandom(32)` bytes as the "shared
secret"; neither call raises. -/
theorem C1_no_library_not_fail_closed
    (oqsKeypair : List Nat × List Nat)
    (oqsDecap : List Nat → List Nat → Except PQError (List Nat))
    (urandomPub urandomSec urandom32 sk ciphertext : List Nat) :
    generate_server_keypair false oqsKeypair urandomPub urandomSec
        = Except.ok (urandomPub, urandomSec) ∧
    server_decapsulate false oqsDecap urandom32 (some sk) ciphertext
        = Except.ok urandom32 :=
  ⟨rfl, rfl⟩

/-- C2: the claim says `server_decapsulate` fails with `InvalidCiphertext`
on every malformed or wrong-length ciphertext.  In the no-library
configuration the code never validates the ciphertext at all: here the
3-byte garbage input `[1, 2, 3]` (malformed for every Kyber parameter set)
still yields the 32 `os.urandom` bytes as a "shared secret" instead of an
error. -/
theorem C2_decapsulate_accepts_malformed
    (oqsDecap : List Nat → List Nat → Except PQError (List Nat))
    (urandom32 sk : List Nat) :
    server_decapsulate false oqsDecap urandom32 (some sk) [1, 2, 3]
      = Except.ok urandom32 :=
  rfl

/-- C3: round-trip of the transport cipher: for every 32-byte key, every
12-byte nonce draw and every plaintext string (the empty string and
arbitrary multi-byte strings included), decrypting the
`(nonce, ciphertext)` pair produced by `encrypt_aes_gcm` with the same key
via `decrypt_aes_gcm` returns exactly the original plaintext. -/
theorem C3_encrypt_decrypt_roundtrip (key nonce : List Nat) (s : String)
    (hk : key.length = 32) (hn : nonce.length = 12) (p : List Nat × List Nat)
    (henc : encrypt_aes_gcm key nonce s = Except.ok p) :
    decrypt_aes_gcm key p.1 p.2 = Except.ok s := by
  unfold encrypt_aes_gcm at henc
  rw [if_pos hk] at henc
  cases henc
  unfold decrypt_aes_gcm
  rw [if_pos hk]
  simp only [aesgcmDecrypt_encrypt, utf8Decode_encode]

/-- Witness for C3 at a concrete input: the all-zero 32-byte key, the
all-zero 12-byte nonce and the plaintext `"hello"`. -/
theorem C3_witness :
    decrypt_aes_gcm (List.replicate 32 0) (List.replicate 12 0)
        (aesgcmEncrypt (List.replicate 32 0) (List.replicate 12 0) (utf8Encode ("hello")))
      = Except.ok ("hello") :=
  C3_encrypt_decrypt_roundtrip (List.replicate 32 0) (List.replicate 12 0) ("hello")
    (by decide) (by decide)
    (List.replicate 12 0,
      aesgcmEncrypt (List.replicate 32 0) (List.replicate 12 0) (utf8Encode ("hello")))
    (by rw [encrypt_aes_gcm, if_pos (by decide)])

/-- C5: atomicity of the handshake: (1) a base64 decode failure and (2) a
decapsulation failure both surface as the HTTP 400 handshake error and
leave the session-key store exactly as it was (so an identity without a key
stays without one, and a prior key stays unmodified); (3) only when
decapsulation succeeds is the store written, and then with precisely the
HKDF-derived key for this identity. -/
theorem C5_handshake_atomic (hasOqs : Bool)
    (oqsDecap : List Nat → List Nat → Except PQError (List Nat))
    (urandom32 : List Nat) (b64 : String → Option (List Nat))
    (secretKey : Option (List Nat)) (store : SessionStore)
    (userId ctB64 : String) :
    (b64 ctB64 = none →
      handshake hasOqs oqsDecap urandom32 b64 secretKey store userId ctB64
        = (Except.error RouterError.handshakeFailed, store)) ∧
    (∀ ct e, b64 ctB64 = some ct →
      server_decapsulate hasOqs oqsDecap urandom32 secretKey ct = Except.error e →
      handshake hasOqs oqsDecap urandom32 b64 secretKey store userId ctB64
        = (Except.error RouterError.handshakeFailed, store)) ∧
    (∀ ct ss, b64 ctB64 = some ct →
      server_decapsulate hasOqs oqsDecap urandom32 secretKey ct = Except.ok ss →
      handshake hasOqs oqsDecap urandom32 b64 secretKey store userId ctB64
        = (Except.ok (), store_session_key store userId
            (derive_session_key ss pqTransportInfo))) := by
  refine ⟨fun h => ?_, fun ct e h hd => ?_, fun ct ss h hd => ?_⟩
  · unfold handshake; simp only [h]
  · unfold handshake; simp only [h, hd]
  · unfold handshake; simp only [h, hd]

/-- Witness for C5 at a concrete input: a base64 decoder that fails, the
empty store; the handshake errors and returns the store unchanged. -/
theorem C5_witness :
    handshake false (fun _ _ => Except.error PQError.oqsError) [] (fun _ => none) none
        emptySessionStore ("alice") ("zzz")
      = (Except.error RouterError.handshakeFailed, emptySessionStore) :=
  (C5_handshake_atomic false (fun _ _ => Except.error PQError.oqsError) [] (fun _ => none)
    none emptySessionStore ("alice") ("zzz")).1 rfl

/-- C6: an identity that never completed a handshake (no entry in the
session-key store) has every encrypted payload rejected with the distinct
no-session-key error, in both `send_message` and `upload_document` — for
every store in which this identity is absent (other identities may hold
keys that would decrypt the payload), every base64 decoder and every
well-formed encrypted payload. -/
theorem C6_no_session_key_rejected (store : SessionStore)
    (b64 : String → Option (List Nat)) (userId : String)
    (m : MessageCreate) (d : DocumentCreate)
    (hm : m.is_encrypted = true) (hd : d.is_encrypted = true)
    (habs : get_session_key store userId = none) :
    send_message_ingest store b64 userId m = Except.error RouterError.noSessionKey ∧
    upload_document_ingest store b64 userId d = Except.error RouterError.noSessionKey := by
  constructor
  · unfold send_message_ingest
    rw [hm]
    simp only [if_true]
    unfold get_session_key at habs
    simp only [get_session_key, habs]
  · unfold upload_document_ingest
    rw [hd]
    simp only [if_true]
    unfold get_session_key at habs
    simp only [get_session_key, habs]

/-- Witness for C6 at a concrete input: the empty store and a well-formed
encrypted message/document. -/
theorem C6_witness :
    send_message_ingest emptySessionStore (fun _ => some [0, 1]) ("alice")
        ⟨none, ("bob"), some ("bm9uY2U="), some ("Y3Q=")⟩ = Except.error RouterError.noSessionKey ∧
    upload_document_ingest emptySessionStore (fun _ => some [0, 1]) ("alice")
        ⟨("title"), none, some ("bm9uY2U="), some ("Y3Q=")⟩
      = Except.error RouterError.noSessionKey :=
  C6_no_session_key_rejected emptySessionStore (fun _ => some [0, 1]) ("alice")
    ⟨none, ("bob"), some ("bm9uY2U="), some ("Y3Q=")⟩
    ⟨("title"), none, some ("bm9uY2U="), some ("Y3Q=")⟩ rfl rfl rfl

/-- C7: `derive_session_key` is pure and deterministic — same inputs give
the same output, with no randomness parameter in its signature — its output
always has exactly 32 bytes, and it is HKDF-SHA-256 with the zero-filled
salt (`salt=None`) and the caller's label as the `info` parameter. -/
theorem C7_derive_session_key_deterministic (ss info : List Nat) :
    derive_session_key ss info = derive_session_key ss info ∧
    (derive_session_key ss info).length = 32 ∧
    derive_session_key ss info = hkdfExpand (hmacSha256 (List.replicate 32 0) ss) info 32 :=
  ⟨rfl, length_derive_session_key ss info, rfl⟩

/-- C8: the session-key store semantics: a fetch with no prior store is
`none` (and, being a total function, never raises); a fetch after a store
returns exactly the stored key; a fetch after a clear is `none` again; a
second store for the same identity replaces the first, so only the new key
is retrievable. -/
theorem C8_session_store_semantics (store : SessionStore) (u : String)
    (k k2 : List Nat) :
    get_session_key emptySessionStore u = none ∧
    get_session_key (store_session_key store u k) u = some k ∧
    get_session_key (clear_session_key store u) u = none ∧
    get_session_key (store_session_key (store_session_key store u k) u k2) u = some k2 ∧
    has_session_key (store_session_key store u k) u = true := by
  refine ⟨rfl, ?_, ?_, ?_, ?_⟩ <;>
    simp [get_session_key, store_session_key, clear_session_key, has_session_key]

/-- C9: inside `decrypt_aes_gcm`'s guarded block, a tag-verification
failure and a UTF-8 decode failure of the authenticated plaintext raise the
one `ValueError`; and whenever the function returns, its result is the
UTF-8 decoding of the authenticated plaintext bytes (hence valid UTF-8). -/
theorem C9_decrypt_single_error_valid_utf8 (key nonce ct : List Nat)
    (hk : key.length = 32) :
    (aesgcmDecrypt key nonce ct = none →
      decrypt_aes_gcm key nonce ct = Except.error PQError.valueError) ∧
    (∀ pb, aesgcmDecrypt key nonce ct = some pb → utf8Decode pb = none →
      decrypt_aes_gcm key nonce ct = Except.error PQError.valueError) ∧
    (∀ s, decrypt_aes_gcm key nonce ct = Except.ok s →
      ∃ pb, aesgcmDecrypt key nonce ct = some pb ∧ utf8Decode pb = some s) := by
  refine ⟨fun h => ?_, fun pb h1 h2 => ?_, fun s h => ?_⟩
  · unfold decrypt_aes_gcm
    rw [if_pos hk]
    simp only [h]
  · unfold decrypt_aes_gcm
    rw [if_pos hk]
    simp only [h1, h2]
  · unfold decrypt_aes_gcm at h
    rw [if_pos hk] at h
    cases hd : aesgcmDecrypt key nonce ct with
    | none =>
      simp only [hd] at h
      exact Except.noConfusion h
    | some pb =>
      simp only [hd] at h
      cases hu : utf8Decode pb with
      | none =>
        simp only [hu] at h
        exact Except.noConfusion h
      | some s2 =>
        simp only [hu] at h
        injection h with h2
        subst h2
        exact ⟨pb, rfl, hu⟩

/-- Witness for C9 at a concrete input: under the all-zero key and nonce,
the encryption of the single byte `0xFF` has a valid tag but its
authenticated plaintext is not valid UTF-8, and decryption fails with the
single `ValueError`. -/
theorem C9_witness :
    decrypt_aes_gcm (List.replicate 32 0) (List.replicate 12 0)
        (aesgcmEncrypt (List.replicate 32 0) (List.replicate 12 0) [0xFF])
      = Except.error PQError.valueError :=
  (C9_decrypt_single_error_valid_utf8 (List.replicate 32 0) (List.replicate 12 0)
      (aesgcmEncrypt (List.replicate 32 0) (List.replicate 12 0) [0xFF]) (by decide)).2.1
    [0xFF] (aesgcmDecrypt_encrypt (List.replicate 32 0) (List.replicate 12 0) [0xFF])
    (by simp [utf8Decode, utf8DecodeList])

/-- C10 counterexample: the claim says supplying both a plaintext `content`
and an encrypted `nonce`/`ciphertext` pair is rejected at validation time,
but a supplied blank content (here a single space) together with a full
encrypted pair passes validation: `model_post_init` treats blank content as
absent. -/
theorem C10_counterexample :
    mkMessageCreate (some (" ")) ("bob") (some ("bm9uY2U=")) (some ("Y3Q="))
      = Except.ok ⟨some (" "), ("bob"), some ("bm9uY2U="), some ("Y3Q=")⟩ := rfl

/-- C10 (amended): a `MessageCreate` with neither a non-blank `content` nor
both `nonce` and `ciphertext` is rejected at validation time; a non-blank
`content` together with the full encrypted pair is rejected; a blank or
absent `content` together with the full encrypted pair is accepted (the
blank content is treated as absent); and `is_encrypted()` is true exactly
when both `nonce` and `ciphertext` are present. -/
theorem C10_message_create_validation (content : Option String) (rid : String)
    (nonce ct : Option String) :
    ((nonce = none ∨ ct = none) →
      (∀ c, content = some c → pyStrip c = "") →
      mkMessageCreate content rid nonce ct
        = Except.error ("Either plaintext or encrypted payload must be provided")) ∧
    (∀ c, nonce ≠ none → ct ≠ none → content = some c → pyStrip c ≠ "" →
      mkMessageCreate content rid nonce ct
        = Except.error ("Cannot provide both plaintext and encrypted payload")) ∧
    (∀ m : MessageCreate, m.is_encrypted = true ↔ (m.nonce ≠ none ∧ m.ciphertext ≠ none)) ∧
    (nonce ≠ none → ct ≠ none → (∀ c, content = some c → pyStrip c = "") →
      mkMessageCreate content rid nonce ct = Except.ok ⟨content, rid, nonce, ct⟩) := by
  refine ⟨?_, ?_, ?_, ?_⟩
  · intro h1 h2
    rcases h1 with h | h <;> subst h <;>
      cases content with
      | none => simp [mkMessageCreate, MessageCreate.is_encrypted]
      | some c => simp [mkMessageCreate, MessageCreate.is_encrypted, h2 c rfl]
  · intro c h1 h2 h3 h4
    cases nonce with
    | none => exact absurd rfl h1
    | some nv =>
      cases ct with
      | none => exact absurd rfl h2
      | some cv =>
        subst h3
        have hb : (pyStrip c != ("")) = true := bne_iff_ne.mpr h4
        simp [mkMessageCreate, MessageCreate.is_encrypted, hb]
  · intro m
    cases hm1 : m.nonce <;> cases hm2 : m.ciphertext <;>
      simp [MessageCreate.is_encrypted, hm1, hm2]
  · intro h1 h2 h3
    cases nonce with
    | none => exact absurd rfl h1
    | some nv =>
      cases ct with
      | none => exact absurd rfl h2
      | some cv =>
        cases content with
        | none => simp [mkMessageCreate, MessageCreate.is_encrypted]
        | some c => simp [mkMessageCreate, MessageCreate.is_encrypted, h3 c rfl]

/-- Witness for C10 at a concrete input: an entirely empty payload is
rejected with the "either plaintext or encrypted" validation error. -/
theorem C10_witness :
    mkMessageCreate none ("bob") none none
      = Except.error ("Either plaintext or encrypted payload must be provided") :=
  (C10_message_create_validation none ("bob") none none).1 (Or.inl rfl)
    (fun _ h => Option.noConfusion h)

end PQ
